import Mathlib

/-
Verification development for the tiktok-downloader repository.

The repository contains two parallel implementations of the acquisition
pipeline: the monolithic `tik-tok-scraper.py` and the modular
`downloader.py` / `fetcher.py` / `ui.py` / `config.py` driven by `main.py`.
The definitions below are shallow embeddings of the relevant functions of
both variants.  External effects (the automated browser, the third-party
result page, the network transfer, the filesystem) are modelled by an
explicit environment value and an explicit world state; Python strings are
modelled by Lean `String` at the ASCII level (`str.lower`, `str.strip`,
`str.isdigit` and `int(...)` are modelled character-wise on ASCII, which is
exact on every ASCII input).
-/

namespace TiktokDownloader

/-! ### ASCII-level string primitives (models of the Python string operations) -/

/-- Does the first character list start with the second one? -/
def charsStart : List Char → List Char → Bool
  | _, [] => true
  | [], _ :: _ => false
  | c :: cs, p :: ps => c == p && charsStart cs ps

/-- Does the first character list contain the second as a contiguous run? -/
def charsContain (s pat : List Char) : Bool :=
  match s with
  | [] => charsStart [] pat
  | _ :: rest => charsStart s pat || charsContain rest pat

/-- Model of Python `pat in s` (substring containment). -/
def strContains (s pat : String) : Bool := charsContain s.data pat.data

/-- Model of Python `s.startswith(pat)`. -/
def strStarts (s pat : String) : Bool := charsStart s.data pat.data

/-- Model of Python `s.endswith(pat)`. -/
def strEnds (s pat : String) : Bool := charsStart s.data.reverse pat.data.reverse

/-- Model of Python `s.lower()` (ASCII case folding). -/
def pyLower (s : String) : String := ⟨s.data.map Char.toLower⟩

/-- Model of Python `s[:n]` (string truncation). -/
def pyTake (s : String) (n : Nat) : String := ⟨s.data.take n⟩

/-- ASCII whitespace, as removed by Python `str.strip()`. -/
def isPySpace (c : Char) : Bool :=
  c == ' ' || c == '\t' || c == '\n' || c == '\r' || c == '\x0b' || c == '\x0c'

/-- Model of Python `s.strip()`. -/
def pyStrip (s : String) : String :=
  ⟨((s.data.dropWhile isPySpace).reverse.dropWhile isPySpace).reverse⟩

/-- Numeric value of a run of ASCII digits. -/
def digitsToNat (cs : List Char) : Nat :=
  cs.foldl (fun n c => 10 * n + (c.toNat - 48)) 0

/-- Model of Python `s.isdigit()` (ASCII digits; nonempty). -/
def pyIsDigitStr (s : String) : Bool :=
  !s.data.isEmpty && s.data.all Char.isDigit

/-- Model of Python `int(s)`: optional sign and surrounding whitespace, then
ASCII digits; `none` models a raised `ValueError`. -/
def pyIntOfString (s : String) : Option Int :=
  match (pyStrip s).data with
  | [] => none
  | '-' :: rest =>
      if !rest.isEmpty && rest.all Char.isDigit then some (-(digitsToNat rest : Int)) else none
  | '+' :: rest =>
      if !rest.isEmpty && rest.all Char.isDigit then some ((digitsToNat rest : Int)) else none
  | cs =>
      if cs.all Char.isDigit then some ((digitsToNat cs : Int)) else none

/-! ### Link extraction (tik-tok-scraper.py `download_via_third_party`, lines 157-173,
and downloader.py `download_via_snaptik`, lines 139-146)

A result page is modelled by the `href` attributes of the `a.download-file`
elements (`cssLinks`; `none` models a missing attribute) and the `href`
attributes of the elements matched by the XPath fallback query
(`xpathLinks`). -/

/-- The CDN allowlist from `download_via_third_party`. -/
def cdnAllowlist : List String :=
  ["tikcdn.io", "tiktokcdn.com", "muscdn.com", "v16-webapp"]

/-- `any(cdn in href for cdn in [...])` from `download_via_third_party`. -/
def isCdnHref (href : String) : Bool :=
  cdnAllowlist.any (fun cdn => strContains href cdn)

/-- First loop of the scraper's extraction: first `a.download-file` link
whose truthy href contains an allowlisted CDN fragment. -/
def findCdnLink : List (Option String) → Option String
  | [] => none
  | none :: rest => findCdnLink rest
  | some h :: rest =>
      if h ≠ "" ∧ isCdnHref h = true then some h else findCdnLink rest

/-- Second loop of the scraper's extraction: first truthy href that is
absolute (`startswith("http")`), is not a placeholder anchor
(`endswith("#")`), and does not point at snaptik's own domain. -/
def findFallbackLink : List (Option String) → Option String
  | [] => none
  | none :: rest => findFallbackLink rest
  | some h :: rest =>
      if h ≠ "" ∧ strStarts h "http" = true ∧ strEnds h "#" = false ∧
          strContains h "snaptik.app" = false
      then some h else findFallbackLink rest

/-- Two-tier link extraction of `download_via_third_party`
(tik-tok-scraper.py lines 157-173): allowlist first, heuristic fallback
only when no allowlisted link was found. -/
def extractDownloadLink (cssLinks xpathLinks : List (Option String)) : Option String :=
  match findCdnLink cssLinks with
  | some l => some l
  | none => findFallbackLink xpathLinks

/-- Link extraction of `download_via_snaptik` (downloader.py lines 139-146):
the href of the first `download-file` element, with a falsy href rejected
(`if not download_link`). -/
def snaptikExtractLink : List (Option String) → Option String
  | [] => none
  | l :: _ => if l.getD "" = "" then none else l

/-! ### Video records (the duck-typed objects consumed by both variants) -/

/-- A Python value sitting in a stats mapping: an int, a string, or `None`. -/
inductive StatVal where
  | vInt (n : Int)
  | vStr (s : String)
  | vNone
  deriving DecidableEq

/-- Python truthiness of a `StatVal` (`if views`/ `views or 0`). -/
def statTruthy : StatVal → Bool
  | .vInt n => n != 0
  | .vStr s => s != ""
  | .vNone => false

/-- Python `int(...)` applied to a `StatVal`; `none` models a raised error. -/
def statToInt : StatVal → Option Int
  | .vInt n => some n
  | .vStr s => pyIntOfString s
  | .vNone => none

/-- The `create_time` attribute: either a `datetime` instance (whose
`strftime("%Y-%m-%d")` result is the stored string) or a raw value that the
code feeds to `int(...)` and `datetime.fromtimestamp`. -/
inductive CreateTime where
  | dt (formatted : String)
  | raw (v : StatVal)
  deriving DecidableEq

/-- A video record from the platform feed.  `none` fields model missing
attributes (`hasattr` false) and a non-dict `stats` value. -/
structure Video where
  id : Option String
  stats : Option (List (String × StatVal))
  create_time : Option CreateTime
  deriving DecidableEq

/-- `get_view_count` from fetcher.py lines 83-92: the sort key used for the
most-viewed ordering.  Any missing/malformed field yields 0; a raised
`int(...)` error is caught and yields 0. -/
def get_view_count (v : Video) : Int :=
  match v.stats with
  | none => 0
  | some stats =>
      let views := (stats.lookup "playCount").getD (.vInt 0)
      if statTruthy views then (statToInt views).getD 0 else 0

/-- `get_video_metadata` from downloader.py lines 175-208.
`fromTs` models `datetime.fromtimestamp(n).strftime("%Y-%m-%d")`; `none`
models a raised exception (caught by the inner `try`, leaving `"N/A"`).
A raised `int(...)` on the stats value escapes to the outer handler, which
returns `("unknown", 0, "N/A")`. -/
def get_video_metadata (fromTs : Int → Option String) (video : Video) :
    String × Int × String :=
  let viewsOpt : Option Int :=
    match video.stats with
    | none => some 0
    | some stats =>
        let raw := (stats.lookup "playCount").getD (.vInt 0)
        statToInt (if statTruthy raw then raw else .vInt 0)
  match viewsOpt with
  | none => ("unknown", 0, "N/A")
  | some views =>
      let date_str :=
        match video.create_time with
        | none => "N/A"
        | some (.dt s) => s
        | some (.raw v) =>
            match statToInt v with
            | none => "N/A"
            | some n => (fromTs n).getD "N/A"
      (video.id.getD "unknown", views, date_str)

/-! ### Stable descending sort (model of `videos.sort(key=get_view_count, reverse=True)`)

CPython's `list.sort` is a stable sort; with `reverse=True` it produces the
unique arrangement that is non-increasing by key and keeps elements with
equal keys in their original relative order.  `sortDesc` below is a stable
insertion sort producing exactly that arrangement. -/

/-- Insert `v` (an element occurring before every element of `l` in the
original list) into the sorted-descending list `l`, before the first
element whose key is less than or equal to `key v`. -/
def insertDesc (key : Video → Int) (v : Video) : List Video → List Video
  | [] => [v]
  | w :: ws => if key w ≤ key v then v :: w :: ws else w :: insertDesc key v ws

/-- Stable descending sort by `key`. -/
def sortDesc (key : Video → Int) : List Video → List Video
  | [] => []
  | v :: vs => insertDesc key v (sortDesc key vs)

/-! ### Fetch-sort engine (fetcher.py `fetch_and_sort_videos`, lines 5-101) -/

/-- The feed: the records the iterator will yield, and what happens when the
consumer asks for one more (`none` = normal exhaustion, `some msg` = the
iterator raises an exception with message `msg`). -/
structure Feed where
  items : List Video
  terminal : Option String
  deriving DecidableEq

/-- The consumption loop body (lines 43-48): append each record, break once
`len(videos) >= fetch_count`.  Collects `min(items.length, max fetch_count 1)`
records (the length check runs after the first append). -/
def fetchUpTo : Nat → List Video → List Video
  | _, [] => []
  | n, v :: rest => v :: (if n ≤ 1 then [] else fetchUpTo (n - 1) rest)

/-- Consume the feed up to `fetch_count` records (lines 42-63).  The
iterator's terminal event (exhaustion or error) is observed only when the
loop does not break early; the second component is the caught error
message, if any. -/
def consumeFeed (feed : Feed) (fetch_count : Nat) : List Video × Option String :=
  if feed.items.isEmpty ∨ feed.items.length < fetch_count then
    (feed.items, feed.terminal)
  else
    (fetchUpTo fetch_count feed.items, none)

/-- The effective fetch bound (lines 33-36): the window (default safety
ceiling 999999) for the sorting modes, the target count otherwise. -/
def fetchCountOf (sort_choice : String) (window_size : Option Nat) (count : Nat) : Nat :=
  if sort_choice = "2" ∨ sort_choice = "3" then window_size.getD 999999 else count

/-- The sort/truncate step (lines 82-99): most-viewed = stable descending
sort by view count then truncate; oldest = reverse then truncate; anything
else = truncate. -/
def applySortChoice (sort_choice : String) (count : Nat) (videos : List Video) : List Video :=
  if sort_choice = "2" then (sortDesc get_view_count videos).take count
  else if sort_choice = "3" then videos.reverse.take count
  else videos.take count

/-- `fetch_and_sort_videos` from fetcher.py lines 5-101.  A consumption
error with zero collected records returns `[]` (line 63), as does an empty
collection (line 79); otherwise the collected records are sorted and
truncated. -/
def fetch_and_sort_videos (feed : Feed) (count : Nat) (sort_choice : String)
    (window_size : Option Nat) : List Video :=
  let videos := (consumeFeed feed (fetchCountOf sort_choice window_size count)).1
  if videos.isEmpty then [] else applySortChoice sort_choice count videos

/-! ### Acquisition state machine (downloader.py `download_via_snaptik`,
tik-tok-scraper.py `download_via_third_party`)

The external effects of one acquisition attempt are captured by an
environment: what the third-party page interaction yields, how the byte
transfer ends, and whether `os.remove` succeeds.  The mutable world is the
set of existing files, the global browser handle, and a count of the
network operations performed (one for driving the third-party page, one
for the transfer attempt). -/

/-- What the browser interaction with the third-party page produces:
either the rendered result page, or an automation exception. -/
inductive ResolveEvent where
  | page (cssLinks xpathLinks : List (Option String))
  | raised (msg : String)
  deriving DecidableEq

/-- How `download_file` ends: success, failure leaving a partial file, or
failure with nothing written. -/
inductive TransferOutcome where
  | ok
  | failPartial
  | failClean
  deriving DecidableEq

/-- The external behaviour visible to one acquisition attempt. -/
structure SnaptikEnv where
  resolve : ResolveEvent
  transfer : TransferOutcome
  removeOk : Bool
  deriving DecidableEq

/-- The mutable world: existing files, the global browser handle, and the
number of network operations performed so far. -/
structure World where
  files : List String
  browser : Option Unit
  netOps : Nat
  deriving DecidableEq

/-- `"chrome" in str(e).lower() or "driver" in str(e).lower()`
(downloader.py line 164). -/
def containsDriverFault (msg : String) : Bool :=
  strContains (pyLower msg) "chrome" || strContains (pyLower msg) "driver"

/-- The platform video URL (downloader.py line 103). -/
def videoUrlOf (username video_id : String) : String :=
  "https://www.tiktok.com/@" ++ username ++ "/video/" ++ video_id

/-- The destination path (downloader.py lines 105-108, with
`get_folder_path` from config.py). -/
def filepathOf (base folder : String) (filename : Option String) (video_id : String) : String :=
  base ++ "/" ++ folder ++ "/" ++ filename.getD video_id ++ ".mp4"

/-- `download_via_snaptik` from downloader.py lines 80-172, as a function of
the environment and the world.  Result: the returned
`(success, error_code, error_detail)` triple and the world afterwards.
An empty `cssLinks` list means the wait for a `download-file` element
times out; the `TimeoutException` reaches the same generic handler as any
other automation exception. -/
def download_via_snaptik (env : SnaptikEnv) (base username video_id folder : String)
    (filename : Option String) (w : World) :
    (Bool × Option String × Option String) × World :=
  if filepathOf base folder filename video_id ∈ w.files then
    ((true, some "exists", none), w)
  else
    match env.resolve with
    | .raised msg =>
        ((false, some "Exception",
          some ("Error: " ++ pyTake msg 100 ++ " | " ++ videoUrlOf username video_id)),
         if containsDriverFault msg then
           { w with browser := none, netOps := w.netOps + 1 }
         else
           { w with browser := some (), netOps := w.netOps + 1 })
    | .page cssLinks _ =>
        if cssLinks.isEmpty then
          ((false, some "Exception",
            some ("Error: " ++ pyTake "Timeout" 100 ++ " | " ++ videoUrlOf username video_id)),
           { w with browser := some (), netOps := w.netOps + 1 })
        else
          match snaptikExtractLink cssLinks with
          | none =>
              ((false, some "No link",
                some ("Could not find download button | " ++ videoUrlOf username video_id)),
               { w with browser := some (), netOps := w.netOps + 1 })
          | some _ =>
              match env.transfer with
              | .ok =>
                  ((true, none, none),
                   { w with browser := some (), netOps := w.netOps + 2,
                            files := filepathOf base folder filename video_id :: w.files })
              | .failPartial =>
                  ((false, some "DL failed",
                    some ("Download failed | " ++ videoUrlOf username video_id)),
                   { w with browser := some (), netOps := w.netOps + 2,
                            files := if env.removeOk then w.files
                                     else filepathOf base folder filename video_id :: w.files })
              | .failClean =>
                  ((false, some "DL failed",
                    some ("Download failed | " ++ videoUrlOf username video_id)),
                   { w with browser := some (), netOps := w.netOps + 2 })

/-- `download_via_third_party` from tik-tok-scraper.py lines 101-191.
Differences from `download_via_snaptik`: two-tier link extraction, a
`"Link error"` result when the wait for a `download-file` element times
out inside the extraction `try`, unconditional browser teardown on an
automation exception, and no cleanup of a partial file after a failed
transfer (`return success, None` with nothing removed). -/
def download_via_third_party (env : SnaptikEnv) (base username video_id folder : String)
    (filename : Option String) (w : World) :
    (Bool × Option String) × World :=
  if filepathOf base folder filename video_id ∈ w.files then
    ((true, some "exists"), w)
  else
    match env.resolve with
    | .raised msg =>
        ((false, some (pyTake msg 20)),
         { w with browser := none, netOps := w.netOps + 1 })
    | .page cssLinks xpathLinks =>
        if cssLinks.isEmpty then
          ((false, some "Link error"),
           { w with browser := some (), netOps := w.netOps + 1 })
        else
          match extractDownloadLink cssLinks xpathLinks with
          | none =>
              ((false, some "No link"),
               { w with browser := some (), netOps := w.netOps + 1 })
          | some _ =>
              match env.transfer with
              | .ok =>
                  ((true, none),
                   { w with browser := some (), netOps := w.netOps + 2,
                            files := filepathOf base folder filename video_id :: w.files })
              | .failPartial =>
                  ((false, none),
                   { w with browser := some (), netOps := w.netOps + 2,
                            files := filepathOf base folder filename video_id :: w.files })
              | .failClean =>
                  ((false, none),
                   { w with browser := some (), netOps := w.netOps + 2 })

/-! ### Orchestration loop (ui.py `download_videos`, lines 204-246, with
downloader.py `download_post`, lines 211-327) -/

/-- A per-item outcome tuple, as returned by `download_post`. -/
structure Outcome where
  success : Bool
  video_id : String
  views : Int
  date : String
  detail : Option String
  deriving DecidableEq

/-- `download_post`: the body of per-item processing may raise (modelled by
`body` returning `Except`); the catch-all handler (downloader.py lines
319-327) converts any raised exception into a failure outcome, so
`download_post` itself never raises. -/
def download_post (body : Video → Nat → Except String Outcome)
    (video : Video) (row_num : Nat) : Outcome :=
  match body video row_num with
  | .ok o => o
  | .error e =>
      { success := false, video_id := "unknown", views := 0, date := "N/A",
        detail := some ("Exception during download (video: " ++ toString row_num ++ "): "
                        ++ pyTake e 100) }

/-- The loop of `download_videos` (ui.py lines 227-234): process each video
in order with 1-based row numbers. -/
def download_videos_loop (body : Video → Nat → Except String Outcome) :
    List Video → Nat → List Outcome
  | [], _ => []
  | v :: rest, i => download_post body v i :: download_videos_loop body rest (i + 1)

/-- `download_videos` from ui.py lines 204-246: one outcome per input
record, in input order. -/
def download_videos (body : Video → Nat → Except String Outcome)
    (videos : List Video) : List Outcome :=
  download_videos_loop body videos 1

/-! ### Count prompt (ui.py `get_download_count`, lines 62-78) -/

/-- `get_download_count` as a function of the raw line returned by
`input()`: strip, check for back commands case-insensitively, then parse a
digit string or fall back to the default 10. -/
def get_download_count (raw : String) : Option Nat :=
  let count_input := pyStrip raw
  if pyLower count_input = "b" ∨ pyLower count_input = "back" then none
  else if pyIsDigitStr count_input then some (digitsToNat count_input.data)
  else some 10

/-! ### Concrete inputs used by the witnesses and counterexamples -/

/-- A result page whose first `download-file` link is not on the CDN
allowlist while its second one is. -/
def cssLinksC1 : List (Option String) :=
  [some "https://host.example/a.mp4", some "https://v16-webapp.tiktokcdn.com/b.mp4"]

/-- `download-file` links for the allowlist witness. -/
def cssLinksC1w : List (Option String) :=
  [some "https://host.example/a.mp4", some "https://cdn.tikcdn.io/v.mp4"]

/-- Fallback links: a placeholder anchor, a snaptik self-link, then a
usable absolute link. -/
def xpathLinksC1w : List (Option String) :=
  [some "#", some "https://snaptik.app/x", some "http://media.example/v.mp4"]

/-- A record with only an id. -/
def vidA : Video := ⟨some "a", none, none⟩

/-- A second record with only an id. -/
def vidB : Video := ⟨some "b", none, none⟩

/-- A third record with only an id. -/
def vidC : Video := ⟨some "c", none, none⟩

/-- A per-item body that raises on the first row and succeeds afterwards. -/
def bodyC2 : Video → Nat → Except String Outcome :=
  fun _ n => if n = 1 then .error "boom" else .ok ⟨true, "b", 0, "N/A", none⟩

/-- An environment whose page interaction and transfer both succeed. -/
def envC3a : SnaptikEnv := ⟨.page [some "https://x.tikcdn.io/v.mp4"] [], .ok, true⟩

/-- A second, entirely failing environment for the repeated call. -/
def envC3b : SnaptikEnv := ⟨.raised "chrome gone", .failPartial, false⟩

/-- The world after a fresh successful download of `dl/f/v1.mp4`. -/
def wC3out : World := ⟨["dl/f/v1.mp4"], some (), 2⟩

/-- An environment whose transfer fails leaving a partial file. -/
def envC4x : SnaptikEnv := ⟨.page [some "https://x.tikcdn.io/v.mp4"] [], .failPartial, true⟩

/-- An environment whose transfer fails writing nothing. -/
def envC4w : SnaptikEnv := ⟨.page [some "https://x.tikcdn.io/v.mp4"] [], .failClean, true⟩

/-- An environment raising an automation exception whose message mentions
neither chrome nor driver. -/
def envC5x : SnaptikEnv := ⟨.raised "connection reset by peer", .ok, true⟩

/-- An environment raising an automation exception with an upper-case
driver-fault keyword. -/
def envC5w : SnaptikEnv := ⟨.raised "CHROME unreachable", .ok, true⟩

/-- A feed of three records that raises after yielding them. -/
def feedC7 : Feed := ⟨[vidA, vidB, vidC], some "boom"⟩

/-- A video whose stats value is an unparseable string, whose creation time
is `None`, and whose id attribute is missing. -/
def videoC9 : Video := ⟨none, some [("playCount", .vStr "12abc")], some (.raw .vNone)⟩

/-- A timestamp formatter that always raises. -/
def fromTsC9 : Int → Option String := fun _ => none

/-! ### Helper lemmas -/

theorem download_videos_loop_length (body : Video → Nat → Except String Outcome)
    (videos : List Video) (start : Nat) :
    (download_videos_loop body videos start).length = videos.length := by
  induction videos generalizing start with
  | nil => rfl
  | cons v rest ih => simp [download_videos_loop, ih]

theorem download_videos_loop_getElem (body : Video → Nat → Except String Outcome)
    (videos : List Video) :
    ∀ start i v, videos[i]? = some v →
      (download_videos_loop body videos start)[i]?
        = some (download_post body v (start + i)) := by
  induction videos with
  | nil => intro start i v h; simp at h
  | cons x rest ih =>
    intro start i v h
    cases i with
    | zero =>
      simp only [List.getElem?_cons_zero, Option.some.injEq] at h
      subst h
      simp [download_videos_loop]
    | succ n =>
      have h2 : rest[n]? = some v := by simpa using h
      have := ih (start + 1) n v h2
      simp only [download_videos_loop, List.getElem?_cons_succ]
      rw [this]
      congr 2
      omega

/-! ### Claim C2 -/

/-- Claim C2: the orchestration loop (`download_videos` in ui.py) produces
exactly one outcome per input record, in exactly the input order (the i-th
outcome is `download_post` applied to the i-th record with 1-based row
number i+1).  Per-item processing is `download_post`, whose catch-all
handler converts any raised exception into a failure outcome, so it never
raises to the loop and no record's failure prevents later records from
being processed. -/
theorem C2_outcomes_in_order (body : Video → Nat → Except String Outcome)
    (videos : List Video) :
    (download_videos body videos).length = videos.length ∧
    (∀ i v, videos[i]? = some v →
      (download_videos body videos)[i]? = some (download_post body v (i + 1))) := by
  constructor
  · exact download_videos_loop_length body videos 1
  · intro i v h
    have h2 := download_videos_loop_getElem body videos 1 i v h
    unfold download_videos
    rw [h2]
    congr 2
    omega

/-- Witness for C2: with a body that raises on the first record, the second
record is still processed and its outcome sits at index 1. -/
theorem C2_outcomes_in_order_witness :
    (download_videos bodyC2 [vidA, vidB])[1]? = some (download_post bodyC2 vidB 2) :=
  (C2_outcomes_in_order bodyC2 [vidA, vidB]).2 1 vidB (by decide)

/-! ### Claim C10 -/

/-- Counterexample for C10: the raw input `" 7 "` is neither a back command
nor composed solely of ASCII digits, yet `get_download_count` returns 7,
not the default 10, because the code strips the input before testing it. -/
theorem C10_counterexample :
    pyLower " 7 " ≠ "b" ∧ pyLower " 7 " ≠ "back" ∧ pyIsDigitStr " 7 " = false ∧
    get_download_count " 7 " = some 7 ∧ get_download_count " 7 " ≠ some 10 := by
  decide

/-- Claim C10 (amended): after stripping surrounding whitespace,
`get_download_count` returns `none` exactly when the stripped input
lowercases to "b" or "back"; when the stripped input is a nonempty digit
string it returns its numeric value, and otherwise it returns the default
10.  It never raises (the function is total on these alternatives). -/
theorem C10_count_prompt (raw : String) :
    (get_download_count raw = none ↔
      (pyLower (pyStrip raw) = "b" ∨ pyLower (pyStrip raw) = "back")) ∧
    (pyIsDigitStr (pyStrip raw) = true →
      get_download_count raw = none ∨
        get_download_count raw = some (digitsToNat (pyStrip raw).data)) ∧
    (pyIsDigitStr (pyStrip raw) = false →
      get_download_count raw = none ∨ get_download_count raw = some 10) := by
  unfold get_download_count
  by_cases hb : pyLower (pyStrip raw) = "b" ∨ pyLower (pyStrip raw) = "back"
  · simp [hb]
  · by_cases hd : pyIsDigitStr (pyStrip raw) = true
    · simp [hb, hd]
    · simp [hb, hd]

/-- Witness for C10: the digit input "25" parses to 25. -/
theorem C10_count_prompt_witness :
    pyIsDigitStr (pyStrip "25") = true ∧
    (get_download_count "25" = none ∨
      get_download_count "25" = some (digitsToNat (pyStrip "25").data)) :=
  ⟨by decide, (C10_count_prompt "25").2.1 (by decide)⟩

/-! ### Fetch-engine lemmas -/

theorem fetch_and_sort_eq (feed : Feed) (count : Nat) (sc : String) (ws : Option Nat) :
    fetch_and_sort_videos feed count sc ws
      = if ((consumeFeed feed (fetchCountOf sc ws count)).1).isEmpty then []
        else applySortChoice sc count (consumeFeed feed (fetchCountOf sc ws count)).1 := rfl

theorem consumeFeed_reach (feed : Feed) (fc : Nat)
    (h : feed.items.isEmpty ∨ feed.items.length < fc) :
    consumeFeed feed fc = (feed.items, feed.terminal) := by
  unfold consumeFeed
  rw [if_pos h]

theorem fetchUpTo_length_le (n : Nat) (l : List Video) :
    (fetchUpTo n l).length ≤ max n 1 := by
  induction l generalizing n with
  | nil => simp [fetchUpTo]
  | cons v rest ih =>
    by_cases h : n ≤ 1
    · simp [fetchUpTo, h]
    · have h2 := ih (n - 1)
      simp only [fetchUpTo, if_neg h, List.length_cons]
      omega

theorem consumeFeed_length_le (feed : Feed) (fc : Nat) :
    ((consumeFeed feed fc).1).length ≤ max fc 1 := by
  by_cases h : feed.items.isEmpty ∨ feed.items.length < fc
  · rw [consumeFeed_reach feed fc h]
    rcases h with h | h
    · rw [List.isEmpty_iff] at h
      simp [h]
    · simp only []
      omega
  · unfold consumeFeed
    rw [if_neg h]
    exact fetchUpTo_length_le fc feed.items

/-! ### Claim C7 -/

/-- Claim C7: when the feed raises during consumption (its terminal event is
an error and consumption actually reaches it), the engine proceeds with
whatever was collected: if at least one record was collected the result is
those records sorted and truncated per the active plan, and if zero records
were collected the result is empty. -/
theorem C7_feed_error_graceful (feed : Feed) (count : Nat) (sort_choice : String)
    (window_size : Option Nat) (msg : String)
    (hterm : feed.terminal = some msg)
    (hreach : feed.items.isEmpty ∨ feed.items.length < fetchCountOf sort_choice window_size count) :
    (feed.items ≠ [] →
      fetch_and_sort_videos feed count sort_choice window_size
        = applySortChoice sort_choice count feed.items) ∧
    (feed.items = [] →
      fetch_and_sort_videos feed count sort_choice window_size = []) := by
  have hc := consumeFeed_reach feed (fetchCountOf sort_choice window_size count) hreach
  constructor
  · intro hne
    rw [fetch_and_sort_eq, hc]
    simp only []
    rw [if_neg (by simpa [List.isEmpty_iff] using hne)]
  · intro hnil
    rw [fetch_and_sort_eq, hc]
    simp [hnil]

/-- Witness for C7: a feed that raises after yielding three records still
yields those records sorted and truncated by the most-viewed plan. -/
theorem C7_feed_error_graceful_witness :
    fetch_and_sort_videos feedC7 2 "2" (some 50) = applySortChoice "2" 2 feedC7.items :=
  (C7_feed_error_graceful feedC7 2 "2" (some 50) "boom" rfl (by decide)).1 (by decide)

/-! ### Claim C8 -/

/-- Claim C8: with sort mode OLDEST (choice "3"), the engine's output equals
the consumed portion of the feed reversed and truncated to the target
count, and the consumed portion is bounded by the fetch window (default:
the 999999 safety ceiling); the `max _ 1` accounts for the loop appending
one record before its first break check. -/
theorem C8_oldest_reverse_truncate (feed : Feed) (count : Nat) (window_size : Option Nat) :
    fetch_and_sort_videos feed count "3" window_size
      = ((consumeFeed feed (fetchCountOf "3" window_size count)).1).reverse.take count ∧
    ((consumeFeed feed (fetchCountOf "3" window_size count)).1).length
      ≤ max (fetchCountOf "3" window_size count) 1 := by
  constructor
  · rw [fetch_and_sort_eq]
    by_cases h : ((consumeFeed feed (fetchCountOf "3" window_size count)).1).isEmpty
    · rw [if_pos h]
      rw [List.isEmpty_iff] at h
      rw [h]
      simp
    · rw [if_neg h]
      unfold applySortChoice
      rw [if_neg (by decide), if_pos rfl]
  · exact consumeFeed_length_le feed _

/-! ### Stable-sort lemmas -/

theorem mem_insertDesc (key : Video → Int) (v x : Video) (l : List Video) :
    x ∈ insertDesc key v l ↔ x = v ∨ x ∈ l := by
  induction l with
  | nil => simp [insertDesc]
  | cons w ws ih =>
    by_cases hle : key w ≤ key v
    · simp only [insertDesc, if_pos hle, List.mem_cons]
    · simp only [insertDesc, if_neg hle, List.mem_cons, ih]
      tauto

theorem pairwise_insertDesc (key : Video → Int) (v : Video) (l : List Video)
    (h : l.Pairwise (fun a b => key b ≤ key a)) :
    (insertDesc key v l).Pairwise (fun a b => key b ≤ key a) := by
  induction l with
  | nil => simp [insertDesc]
  | cons w ws ih =>
    rcases List.pairwise_cons.mp h with ⟨hw, hws⟩
    by_cases hle : key w ≤ key v
    · simp only [insertDesc, if_pos hle]
      refine List.pairwise_cons.mpr ⟨?_, h⟩
      intro x hx
      rcases List.mem_cons.mp hx with rfl | hx2
      · exact hle
      · exact le_trans (hw x hx2) hle
    · simp only [insertDesc, if_neg hle]
      refine List.pairwise_cons.mpr ⟨?_, ih hws⟩
      intro x hx
      rcases (mem_insertDesc key v x ws).mp hx with rfl | hx2
      · omega
      · exact hw x hx2

theorem sorted_sortDesc (key : Video → Int) (l : List Video) :
    (sortDesc key l).Pairwise (fun a b => key b ≤ key a) := by
  induction l with
  | nil => simp [sortDesc]
  | cons v vs ih => exact pairwise_insertDesc key v _ ih

theorem filter_insertDesc (key : Video → Int) (k : Int) (v : Video) (l : List Video) :
    (insertDesc key v l).filter (fun w => decide (key w = k))
      = if key v = k then v :: l.filter (fun w => decide (key w = k))
        else l.filter (fun w => decide (key w = k)) := by
  induction l with
  | nil => by_cases hv : key v = k <;> simp [insertDesc, hv]
  | cons w ws ih =>
    by_cases hle : key w ≤ key v
    · simp only [insertDesc, if_pos hle]
      by_cases hv : key v = k
      · rw [if_pos hv]
        simp [hv]
      · rw [if_neg hv]
        simp [hv]
    · simp only [insertDesc, if_neg hle]
      by_cases hv : key v = k
      · have hw : ¬ (key w = k) := by omega
        rw [if_pos hv]
        simp [hw, ih, hv]
      · rw [if_neg hv]
        by_cases hw : key w = k <;> simp [hw, ih, hv]

theorem filter_sortDesc (key : Video → Int) (k : Int) (l : List Video) :
    (sortDesc key l).filter (fun w => decide (key w = k))
      = l.filter (fun w => decide (key w = k)) := by
  induction l with
  | nil => rfl
  | cons v vs ih =>
    simp only [sortDesc, filter_insertDesc, ih]
    by_cases hv : key v = k <;> simp [hv]

/-! ### Claim C6 -/

/-- Claim C6: with sort mode MOST_VIEWED (choice "2"), the engine's output
is non-increasing by extracted view count; for every view count `k`, the
output records with view count `k` form a sublist of the consumed feed's
records with view count `k` (so equal-count records keep their relative
fetched order — stability); and the output is truncated to at most the
target count. -/
theorem C6_most_viewed_stable (feed : Feed) (count : Nat) (window_size : Option Nat) :
    (fetch_and_sort_videos feed count "2" window_size).Pairwise
      (fun a b => get_view_count b ≤ get_view_count a) ∧
    (∀ k : Int,
      ((fetch_and_sort_videos feed count "2" window_size).filter
          (fun v => decide (get_view_count v = k))).Sublist
        (((consumeFeed feed (fetchCountOf "2" window_size count)).1).filter
          (fun v => decide (get_view_count v = k)))) ∧
    (fetch_and_sort_videos feed count "2" window_size).length ≤ count := by
  rw [fetch_and_sort_eq]
  by_cases h : ((consumeFeed feed (fetchCountOf "2" window_size count)).1).isEmpty
  · rw [if_pos h]
    refine ⟨List.Pairwise.nil, fun k => List.nil_sublist _, by simp⟩
  · rw [if_neg h]
    have happ : applySortChoice "2" count
        ((consumeFeed feed (fetchCountOf "2" window_size count)).1)
        = (sortDesc get_view_count
            ((consumeFeed feed (fetchCountOf "2" window_size count)).1)).take count := by
      unfold applySortChoice
      rw [if_pos rfl]
    rw [happ]
    refine ⟨?_, ?_, ?_⟩
    · exact List.Pairwise.sublist (List.take_sublist count _)
        (sorted_sortDesc get_view_count _)
    · intro k
      have h1 := List.Sublist.filter (fun v => decide (get_view_count v = k))
        (List.take_sublist count
          (sortDesc get_view_count ((consumeFeed feed (fetchCountOf "2" window_size count)).1)))
      rw [filter_sortDesc] at h1
      exact h1
    · exact List.length_take_le count _

/-! ### Link-extraction lemmas -/

theorem findCdnLink_some (css : List (Option String)) (l : String)
    (h : findCdnLink css = some l) : l ≠ "" ∧ isCdnHref l = true := by
  induction css with
  | nil => simp [findCdnLink] at h
  | cons o rest ih =>
    cases o with
    | none => exact ih (by simpa [findCdnLink] using h)
    | some s =>
      by_cases hc : s ≠ "" ∧ isCdnHref s = true
      · simp only [findCdnLink, if_pos hc, Option.some.injEq] at h
        subst h
        exact hc
      · simp only [findCdnLink, if_neg hc] at h
        exact ih h

theorem findCdnLink_none (css : List (Option String))
    (h : findCdnLink css = none) :
    ∀ l, some l ∈ css → l = "" ∨ isCdnHref l = false := by
  induction css with
  | nil => intro l hl; simp at hl
  | cons o rest ih =>
    intro l hl
    cases o with
    | none =>
      rcases List.mem_cons.mp hl with heq | hmem
      · exact absurd heq (by simp)
      · exact ih (by simpa [findCdnLink] using h) l hmem
    | some s =>
      by_cases hc : s ≠ "" ∧ isCdnHref s = true
      · simp only [findCdnLink, if_pos hc] at h
        exact absurd h (by simp)
      · simp only [findCdnLink, if_neg hc] at h
        rcases List.mem_cons.mp hl with heq | hmem
        · have hls : l = s := by
            simpa using heq
          subst hls
          rcases Decidable.not_and_iff_or_not.mp hc with h1 | h2
          · exact Or.inl (Decidable.not_not.mp h1)
          · exact Or.inr (Bool.not_eq_true _ ▸ Bool.eq_false_iff.mpr (fun hx => h2 hx))
        · exact ih h l hmem

theorem findFallbackLink_some (links : List (Option String)) (l : String)
    (h : findFallbackLink links = some l) :
    l ≠ "" ∧ strStarts l "http" = true ∧ strEnds l "#" = false ∧
      strContains l "snaptik.app" = false := by
  induction links with
  | nil => simp [findFallbackLink] at h
  | cons o rest ih =>
    cases o with
    | none => exact ih (by simpa [findFallbackLink] using h)
    | some s =>
      by_cases hc : s ≠ "" ∧ strStarts s "http" = true ∧ strEnds s "#" = false ∧
          strContains s "snaptik.app" = false
      · simp only [findFallbackLink, if_pos hc, Option.some.injEq] at h
        subst h
        exact hc
      · simp only [findFallbackLink, if_neg hc] at h
        exact ih h

/-! ### Claim C1 -/

/-- Counterexample for C1: on a result page whose first `download-file`
link is not on the CDN allowlist while its second one is, the modular
variant's link resolution (`download_via_snaptik`, downloader.py lines
139-146, embedded as `snaptikExtractLink`) selects the first link
encountered, not the allowlisted one. -/
theorem C1_counterexample :
    isCdnHref "https://v16-webapp.tiktokcdn.com/b.mp4" = true ∧
    some "https://v16-webapp.tiktokcdn.com/b.mp4" ∈ cssLinksC1 ∧
    snaptikExtractLink cssLinksC1 = some "https://host.example/a.mp4" ∧
    isCdnHref "https://host.example/a.mp4" = false := by decide

/-- Claim C1 (amended): the two-tier policy holds for the monolithic
variant's resolver (`download_via_third_party`, embedded as
`extractDownloadLink`): whenever any `download-file` link with a truthy
href matches the CDN allowlist, the selected link matches the allowlist;
only when no allowlisted link exists does extraction fall back to the
first link that is absolute, is not a placeholder anchor, and does not
point at snaptik's own domain.  The modular variant's resolver
(`snaptikExtractLink`) instead takes the first `download-file` link's href
unconditionally. -/
theorem C1_allowlist_policy (cssLinks xpathLinks : List (Option String)) :
    (∀ l, some l ∈ cssLinks → l ≠ "" → isCdnHref l = true →
        ∃ l2, extractDownloadLink cssLinks xpathLinks = some l2 ∧ isCdnHref l2 = true) ∧
    (findCdnLink cssLinks = none →
        extractDownloadLink cssLinks xpathLinks = findFallbackLink xpathLinks) ∧
    (∀ l, findFallbackLink xpathLinks = some l →
        strStarts l "http" = true ∧ strEnds l "#" = false ∧
        strContains l "snaptik.app" = false) := by
  refine ⟨?_, ?_, ?_⟩
  · intro l hmem hne hcdn
    cases hfind : findCdnLink cssLinks with
    | none =>
      rcases findCdnLink_none cssLinks hfind l hmem with h | h
      · exact absurd h hne
      · rw [hcdn] at h
        cases h
    | some l2 =>
      refine ⟨l2, ?_, (findCdnLink_some cssLinks l2 hfind).2⟩
      unfold extractDownloadLink
      rw [hfind]
  · intro hfind
    unfold extractDownloadLink
    rw [hfind]
  · intro l h
    exact (findFallbackLink_some xpathLinks l h).2

/-- Witness for C1: on a page with a non-allowlisted first link and an
allowlisted second link the extraction selects an allowlisted link, and the
fallback properties hold for the link selected from the fallback list. -/
theorem C1_allowlist_policy_witness :
    (∃ l2, extractDownloadLink cssLinksC1w xpathLinksC1w = some l2 ∧ isCdnHref l2 = true) ∧
    (strStarts "http://media.example/v.mp4" "http" = true ∧
     strEnds "http://media.example/v.mp4" "#" = false ∧
     strContains "http://media.example/v.mp4" "snaptik.app" = false) :=
  ⟨(C1_allowlist_policy cssLinksC1w xpathLinksC1w).1 "https://cdn.tikcdn.io/v.mp4"
      (by decide) (by decide) (by decide),
   (C1_allowlist_policy cssLinksC1w xpathLinksC1w).2.2 "http://media.example/v.mp4"
      (by decide)⟩

/-! ### Acquisition-state lemmas -/

theorem snaptik_exists (env : SnaptikEnv) (base username video_id folder : String)
    (filename : Option String) (w : World)
    (hmem : filepathOf base folder filename video_id ∈ w.files) :
    download_via_snaptik env base username video_id folder filename w
      = ((true, some "exists", none), w) := by
  unfold download_via_snaptik
  rw [if_pos hmem]

theorem snaptik_success_mem (env : SnaptikEnv) (base username video_id folder : String)
    (filename : Option String) (w w2 : World)
    (h : download_via_snaptik env base username video_id folder filename w
      = ((true, none, none), w2)) :
    filepathOf base folder filename video_id ∈ w2.files := by
  unfold download_via_snaptik at h
  by_cases hex : filepathOf base folder filename video_id ∈ w.files
  · rw [if_pos hex] at h
    simp at h
  · rw [if_neg hex] at h
    cases hres : env.resolve with
    | raised msg =>
      rw [hres] at h
      by_cases hd : containsDriverFault msg <;> simp [hd] at h
    | page css xpath =>
      rw [hres] at h
      by_cases hemp : css.isEmpty
      · simp [hemp] at h
      · cases hextr : snaptikExtractLink css with
        | none => simp [hemp, hextr] at h
        | some l =>
          cases htr : env.transfer with
          | ok =>
            simp only [hemp, hextr, htr, Bool.false_eq_true, if_false, Prod.mk.injEq,
              true_and, and_true] at h
            rw [← h]
            exact List.mem_cons_self _ _
          | failPartial => simp [hemp, hextr, htr] at h
          | failClean => simp [hemp, hextr, htr] at h

/-! ### Claim C3 -/

/-- Claim C3: when the destination path already exists, `download_via_snaptik`
returns the "exists" outcome with the world completely unchanged (no browser
acquisition, no page interaction, no transfer, no change to `netOps`).
Consequently a second call after a fresh successful download — under any
environment whatsoever — returns "exists" and again leaves the world
unchanged, so network I/O happens only in the first call. -/
theorem C3_already_exists_idempotent (env env2 : SnaptikEnv)
    (base username video_id folder : String) (filename : Option String) (w : World) :
    (filepathOf base folder filename video_id ∈ w.files →
        download_via_snaptik env base username video_id folder filename w
          = ((true, some "exists", none), w)) ∧
    (∀ w2, download_via_snaptik env base username video_id folder filename w
          = ((true, none, none), w2) →
        download_via_snaptik env2 base username video_id folder filename w2
          = ((true, some "exists", none), w2)) := by
  refine ⟨fun hmem => snaptik_exists env base username video_id folder filename w hmem, ?_⟩
  intro w2 h
  exact snaptik_exists env2 base username video_id folder filename w2
    (snaptik_success_mem env base username video_id folder filename w w2 h)

/-- Witness for C3: after a successful first download (2 network
operations), the second call — under a fully failing environment — returns
"exists" with the world unchanged. -/
theorem C3_already_exists_idempotent_witness :
    download_via_snaptik envC3a "dl" "u" "v1" "f" none ⟨[], none, 0⟩
      = ((true, none, none), wC3out) ∧
    download_via_snaptik envC3b "dl" "u" "v1" "f" none wC3out
      = ((true, some "exists", none), wC3out) :=
  ⟨by decide,
   (C3_already_exists_idempotent envC3a envC3b "dl" "u" "v1" "f" none
      ⟨[], none, 0⟩).2 wC3out (by decide)⟩

/-! ### Claim C4 -/

/-- Counterexample for C4: in the monolithic variant
(`download_via_third_party`, tik-tok-scraper.py lines 177-181), a failed
transfer returns the failure outcome but performs no cleanup, so the
partially written file is still present afterwards. -/
theorem C4_counterexample :
    filepathOf "dl" "f" none "v1" ∉ (⟨[], none, 0⟩ : World).files ∧
    (download_via_third_party envC4x "dl" "u" "v1" "f" none ⟨[], none, 0⟩).1.1 = false ∧
    filepathOf "dl" "f" none "v1"
      ∈ (download_via_third_party envC4x "dl" "u" "v1" "f" none ⟨[], none, 0⟩).2.files := by
  decide

/-- Claim C4 (amended): in the modular variant (`download_via_snaptik`,
downloader.py lines 149-157), for every resolution or transfer failure on a
video whose destination path did not exist beforehand, the failure outcome
is returned and — provided the best-effort removal succeeds (removal
failure is swallowed) — the destination path does not contain a partially
written file afterwards.  The monolithic variant returns the failure
outcome but leaves the partial file (see the counterexample). -/
theorem C4_no_partial_snaptik (env : SnaptikEnv) (base username video_id folder : String)
    (filename : Option String) (w : World)
    (hnew : filepathOf base folder filename video_id ∉ w.files)
    (hrm : env.removeOk = true)
    (hfail : (download_via_snaptik env base username video_id folder filename w).1.1 = false) :
    filepathOf base folder filename video_id
      ∉ (download_via_snaptik env base username video_id folder filename w).2.files := by
  unfold download_via_snaptik at hfail ⊢
  rw [if_neg hnew] at hfail ⊢
  cases hres : env.resolve with
  | raised msg =>
    by_cases hd : containsDriverFault msg <;> simp [hd, hnew]
  | page css xpath =>
    by_cases hemp : css.isEmpty
    · simp [hemp, hnew]
    · cases hextr : snaptikExtractLink css with
      | none => simp [hemp, hextr, hnew]
      | some l =>
        cases htr : env.transfer with
        | ok => simp [hres, hemp, hextr, htr] at hfail
        | failPartial => simp [hemp, hextr, htr, hrm, hnew]
        | failClean => simp [hemp, hextr, htr, hnew]

/-- Witness for C4: a cleanly failing transfer on a fresh path leaves no
file behind. -/
theorem C4_no_partial_snaptik_witness :
    filepathOf "dl" "f" none "v1"
      ∉ (download_via_snaptik envC4w "dl" "u" "v1" "f" none ⟨[], none, 0⟩).2.files :=
  C4_no_partial_snaptik envC4w "dl" "u" "v1" "f" none ⟨[], none, 0⟩
    (by decide) (by decide) (by decide)

/-! ### Claim C5 -/

/-- Counterexample for C5: an automation exception whose message contains
neither "chrome" nor "driver" still produces the generic "Exception"
failure outcome, but the browser session handle is NOT destroyed — the
claim's "in both cases the browser session handle is destroyed" is false
for `download_via_snaptik` (downloader.py lines 161-172). -/
theorem C5_counterexample :
    containsDriverFault "connection reset by peer" = false ∧
    (download_via_snaptik envC5x "dl" "u" "v1" "f" none ⟨[], some (), 0⟩).1
      = (false, some "Exception",
         some "Error: connection reset by peer | https://www.tiktok.com/@u/video/v1") ∧
    (download_via_snaptik envC5x "dl" "u" "v1" "f" none ⟨[], some (), 0⟩).2.browser
      = some () := by
  decide

/-- Claim C5 (amended): every lower-level automation exception raised during
link resolution is mapped to the single "Exception" failure outcome with a
truncated detail message; the browser session handle is destroyed (so the
next attempt starts from a fresh handle) exactly when the message contains
"chrome" or "driver" case-insensitively, and is retained otherwise. -/
theorem C5_exception_mapping (env : SnaptikEnv) (base username video_id folder : String)
    (filename : Option String) (w : World) (msg : String)
    (hres : env.resolve = .raised msg)
    (hnew : filepathOf base folder filename video_id ∉ w.files) :
    (download_via_snaptik env base username video_id folder filename w).1
      = (false, some "Exception",
         some ("Error: " ++ pyTake msg 100 ++ " | " ++ videoUrlOf username video_id)) ∧
    (download_via_snaptik env base username video_id folder filename w).2.browser
      = (if containsDriverFault msg then none else some ()) := by
  unfold download_via_snaptik
  rw [if_neg hnew, hres]
  by_cases hd : containsDriverFault msg <;> simp [hd]

/-- Witness for C5: an upper-case "CHROME" message is recognized
case-insensitively and triggers session destruction. -/
theorem C5_exception_mapping_witness :
    (download_via_snaptik envC5w "dl" "u" "v1" "f" none ⟨[], some (), 0⟩).1
      = (false, some "Exception",
         some ("Error: " ++ pyTake "CHROME unreachable" 100 ++ " | " ++ videoUrlOf "u" "v1")) ∧
    (download_via_snaptik envC5w "dl" "u" "v1" "f" none ⟨[], some (), 0⟩).2.browser
      = (if containsDriverFault "CHROME unreachable" then none else some ()) :=
  C5_exception_mapping envC5w "dl" "u" "v1" "f" none ⟨[], some (), 0⟩
    "CHROME unreachable" rfl (by decide)

/-! ### Claim C9 -/

/-- Claim C9: metadata extraction is total — every fallible operation in
`get_video_metadata` is caught, so it always returns a triple.  A missing
stats mapping yields view count 0, and so does a malformed one (an
unparseable playCount string raises in `int(...)`, which the outer handler
converts to the `("unknown", 0, "N/A")` triple, whose view-count component
is 0).  A missing creation time or one whose `int(...)` conversion raises
yields the "N/A" sentinel, a missing id yields "unknown", and the
view-count sort key `get_view_count` returns 0 instead of failing on the
same malformed inputs. -/
theorem C9_metadata_total (fromTs : Int → Option String) (video : Video) :
    (video.stats = none → (get_video_metadata fromTs video).2.1 = 0) ∧
    (∀ stats s, video.stats = some stats →
        stats.lookup "playCount" = some (.vStr s) → pyIntOfString s = none →
        (get_video_metadata fromTs video).2.1 = 0) ∧
    (video.create_time = none → (get_video_metadata fromTs video).2.2 = "N/A") ∧
    (∀ v2, video.create_time = some (.raw v2) → statToInt v2 = none →
        (get_video_metadata fromTs video).2.2 = "N/A") ∧
    (video.id = none → (get_video_metadata fromTs video).1 = "unknown") ∧
    (video.stats = none → get_view_count video = 0) ∧
    (∀ stats s, video.stats = some stats →
        stats.lookup "playCount" = some (.vStr s) → pyIntOfString s = none →
        get_view_count video = 0) := by
  rcases video with ⟨vid, vst, vct⟩
  refine ⟨?_, ?_, ?_, ?_, ?_, ?_, ?_⟩
  · intro h
    simp only [] at h
    subst h
    simp [get_video_metadata]
  · intro stats s hst hlk hparse
    simp only [] at hst
    subst hst
    by_cases hs : s = ""
    · subst hs
      simp [get_video_metadata, hlk, statTruthy, statToInt]
    · simp [get_video_metadata, hlk, statTruthy, hs, statToInt, hparse]
  · intro h
    simp only [] at h
    subst h
    unfold get_video_metadata
    cases hv : (match (⟨vid, vst, none⟩ : Video).stats with
      | none => some 0
      | some stats =>
          statToInt (if statTruthy ((stats.lookup "playCount").getD (.vInt 0))
            then (stats.lookup "playCount").getD (.vInt 0) else .vInt 0)) <;> simp
  · intro v2 hct hto
    simp only [] at hct
    subst hct
    unfold get_video_metadata
    cases hv : (match (⟨vid, vst, some (.raw v2)⟩ : Video).stats with
      | none => some 0
      | some stats =>
          statToInt (if statTruthy ((stats.lookup "playCount").getD (.vInt 0))
            then (stats.lookup "playCount").getD (.vInt 0) else .vInt 0)) <;> simp [hto]
  · intro h
    simp only [] at h
    subst h
    unfold get_video_metadata
    cases hv : (match (⟨none, vst, vct⟩ : Video).stats with
      | none => some 0
      | some stats =>
          statToInt (if statTruthy ((stats.lookup "playCount").getD (.vInt 0))
            then (stats.lookup "playCount").getD (.vInt 0) else .vInt 0)) <;> simp
  · intro h
    simp only [] at h
    subst h
    simp [get_view_count]
  · intro stats s hst hlk hparse
    simp only [] at hst
    subst hst
    by_cases hs : s = ""
    · subst hs
      simp [get_view_count, hlk, statTruthy, statToInt]
    · simp [get_view_count, hlk, statTruthy, hs, statToInt, hparse]

/-- Witness for C9: a record with a missing id, an unparseable playCount
string, and an unconvertible creation time yields view count 0, date
"N/A", and id "unknown", and the sort key returns 0 on it. -/
theorem C9_metadata_total_witness :
    (get_video_metadata fromTsC9 videoC9).2.1 = 0 ∧
    (get_video_metadata fromTsC9 videoC9).2.2 = "N/A" ∧
    (get_video_metadata fromTsC9 videoC9).1 = "unknown" ∧
    get_view_count videoC9 = 0 :=
  ⟨(C9_metadata_total fromTsC9 videoC9).2.1 [("playCount", .vStr "12abc")] "12abc"
      rfl (by decide) (by decide),
   (C9_metadata_total fromTsC9 videoC9).2.2.2.1 (.vNone) rfl (by decide),
   (C9_metadata_total fromTsC9 videoC9).2.2.2.2.1 rfl,
   (C9_metadata_total fromTsC9 videoC9).2.2.2.2.2.2 [("playCount", .vStr "12abc")] "12abc"
      rfl (by decide) (by decide)⟩

end TiktokDownloader
